import Mathlib

/-
Verification of the sbxbin-runner process supervisor against its design
specification. The Rust sources (src/main.rs, src/config.rs,
src/redirection.rs) are shallowly embedded below: pure functions become
Lean functions, the monitoring loop becomes a recursive function over a
list of per-iteration oracle inputs (what the OS reported in that
iteration), and u64 arithmetic is modelled as Nat with explicit wrapping
modulo 2 ^ 64 where the source can overflow.
-/

namespace SbxRunner

/-- 2 ^ 64, the modulus of u64 arithmetic in the source. -/
def U64 : Nat := 2 ^ 64

/-- Wrapping u64 subtraction, as performed by the release-mode Rust
operator on u64 operands: a - b taken modulo 2 ^ 64. -/
def wrapSub (a b : Nat) : Nat := (a + (U64 - b % U64)) % U64

/-- The initial run-timeout budget, main.rs line 209:
run_timeout = config.run_timeout_sec * 1000 (u64 multiplication). -/
def run_timeout_init (run_timeout_sec : Nat) : Nat := (run_timeout_sec * 1000) % U64

/-- subprocess::ExitStatus: the raw termination status reported by the OS.
Exited carries a u32 exit code, Signaled carries a u8 signal number,
Other carries an i32 raw status, Undetermined carries nothing. -/
inductive ExitStatus where
  | Exited (code : Nat)
  | Signaled (sig : Nat)
  | Other (raw : Int)
  | Undetermined
deriving DecidableEq

/-- main.rs get_exit_code (lines 96-102): normal exit keeps its code,
signal death maps to sig + 128, anything else decodes to none. -/
def get_exit_code : ExitStatus → Option Nat
  | .Exited code => some code
  | .Signaled sig => some (sig + 128)
  | .Other _ => none
  | .Undetermined => none

/-- main.rs ExitReason (lines 26-32). The spec names these Finished,
TimedOut, SignaledToStop and InternalError. -/
inductive ExitReason where
  | Finished
  | Timeout
  | Terminated
  | InternalError
deriving DecidableEq

/-- main.rs exit (lines 34-41): the process exit status passed to
std:process:exit for each reason. InternalError passes -1. -/
def exit : ExitReason → Int
  | .Finished => 0
  | .Timeout => 138
  | .Terminated => 130
  | .InternalError => -1

/-- config.rs StreamRedirection: the three optional redirection targets. -/
structure StreamRedirection where
  stdin : Option String
  stdout : Option String
  stderr : Option String
deriving DecidableEq

/-- redirection.rs line 21: a missing target resolves to /dev/null. -/
def resolvePath (stream : Option String) : String := stream.getD "/dev/null"

/-- subprocess::Redirection as used by the source: either a freshly
opened file handle on a path, or merging stderr into stdout. -/
inductive Redirection where
  | File (path : String)
  | Merge
deriving DecidableEq

/-- redirection.rs stream_redirection (lines 20-27): open the target
path (default /dev/null) and wrap it as a file redirection. Opening is
modelled as always producing the handle for the resolved path; open
failures do not affect which path is chosen or whether a merge is used. -/
def stream_redirection (stream : Option String) : Redirection :=
  .File (resolvePath stream)

/-- redirection.rs stderr_redirection (lines 37-43): a second sink handle
is opened iff the raw optional stdout and stderr targets differ;
otherwise stderr is merged into stdout. -/
def stderr_redirection (streams : StreamRedirection) : Redirection :=
  if streams.stdout ≠ streams.stderr then stream_redirection streams.stderr
  else .Merge

/-- C5: exit-status decoding is a pure function of the raw status: a
normal exit preserves its code, a signal death maps to 128 + signal
number, any other status form decodes to none (surfaced as
InternalError), and decoding the same status twice yields the same
result (trivially, since the embedding of get_exit_code is a pure
function). -/
theorem c5_get_exit_code_decoding :
    (∀ code, get_exit_code (.Exited code) = some code)
    ∧ (∀ sig, get_exit_code (.Signaled sig) = some (128 + sig))
    ∧ (∀ raw, get_exit_code (.Other raw) = none)
    ∧ get_exit_code .Undetermined = none
    ∧ (∀ st, get_exit_code st = get_exit_code st) := by
  refine ⟨fun code => rfl, fun sig => ?_, fun raw => rfl, rfl, fun st => rfl⟩
  simp [get_exit_code, Nat.add_comm]

/-- C6: the process exit status is a function of the exit reason alone:
Finished maps to 0, Timeout to 138, Terminated to 130, and InternalError
to the sentinel -1, which the Boolean comparisons show is distinct from
0 and from the two reserved codes. -/
theorem c6_exit_status_mapping :
    exit .Finished = 0
    ∧ exit .Timeout = 138
    ∧ exit .Terminated = 130
    ∧ exit .InternalError = -1
    ∧ (exit .InternalError == exit .Finished) = false
    ∧ (exit .InternalError == exit .Terminated) = false
    ∧ (exit .InternalError == exit .Timeout) = false
    ∧ (exit .InternalError == 0) = false := by
  decide

/-- C7 counterexample: with stdout unset and stderr explicitly set to
the default null sink path, both streams resolve to the same target
/dev/null, yet the source compares the raw optional values, finds them
different, and opens a second sink handle instead of merging. -/
theorem c7_counterexample :
    resolvePath (StreamRedirection.mk none none (some "/dev/null")).stdout
      = resolvePath (StreamRedirection.mk none none (some "/dev/null")).stderr
    ∧ stderr_redirection (StreamRedirection.mk none none (some "/dev/null"))
      = .File "/dev/null"
    ∧ (stderr_redirection (StreamRedirection.mk none none (some "/dev/null"))
      == Redirection.Merge) = false := by
  refine ⟨rfl, ?_, ?_⟩ <;> decide

/-- C7 amended: stderr is merged into stdout exactly when the raw
optional stdout and stderr targets are equal (both unset, or both set to
the same string); whenever the raw targets differ - even if both resolve
to the same path such as /dev/null - a separate stderr sink handle is
opened on the resolved stderr path. -/
theorem c7_stderr_merge_rule (streams : StreamRedirection) :
    stderr_redirection streams =
      if streams.stdout = streams.stderr then .Merge
      else .File (resolvePath streams.stderr) := by
  by_cases h : streams.stdout = streams.stderr <;>
    simp [stderr_redirection, stream_redirection, h]

/-- Oracle inputs consumed by one call of graceful_shutdown
(main.rs lines 105-169): whether the SIGTERM send succeeds, what the
grace-period bounded wait returns (none models Err, some none models
Ok(None) - still running, some (some st) models Ok(Some st) - exited),
whether the SIGKILL send succeeds, and what the final unbounded wait
returns (none models Err, some st models Ok(st)). -/
structure ShutdownEnv where
  terminate_ok : Bool
  graceWait : Option (Option ExitStatus)
  kill_ok : Bool
  finalWait : Option ExitStatus
deriving DecidableEq

/-- The observable outcome of one graceful_shutdown call: the returned
result, how many SIGTERM and SIGKILL sends were attempted, and whether
some wait call observed an exit status, confirming the child dead. -/
structure ShutdownRun where
  result : Except String Nat
  termSends : Nat
  killSends : Nat
  confirmedExit : Bool

/-- The tail of graceful_shutdown (main.rs lines 151-168): the final
unbounded ps.wait followed by exit-code decoding. kills is the number of
SIGKILL sends so far, graceObserved whether the grace-period wait
already observed an exit status. -/
def shutdown_final (ps : ShutdownEnv) (kills : Nat) (graceObserved : Bool) :
    ShutdownRun :=
  match ps.finalWait with
  | none =>
    { result := .error "Unhandled error in process.wait()",
      termSends := 1, killSends := kills, confirmedExit := graceObserved }
  | some st =>
    match get_exit_code st with
    | some code =>
      { result := .ok code,
        termSends := 1, killSends := kills, confirmedExit := true }
    | none =>
      { result := .error "Failed to get child exit code",
        termSends := 1, killSends := kills, confirmedExit := true }

/-- main.rs graceful_shutdown (lines 105-169): send SIGTERM; on send
failure return the error at once. Wait up to the grace period; an error
in that wait is returned at once. If the child is still running after
the grace period, send SIGKILL (a send failure is returned at once).
Finally wait unboundedly and decode the exit status. -/
def graceful_shutdown (ps : ShutdownEnv) : ShutdownRun :=
  if ps.terminate_ok = false then
    { result := .error "Failed to send SIGTERM",
      termSends := 1, killSends := 0, confirmedExit := false }
  else
    match ps.graceWait with
    | none =>
      { result := .error "Unhandled error in process.wait()",
        termSends := 1, killSends := 0, confirmedExit := false }
    | some (some _) => shutdown_final ps 0 true
    | some none =>
      if ps.kill_ok = false then
        { result := .error "Failed to send SIGKILL",
          termSends := 1, killSends := 1, confirmedExit := false }
      else shutdown_final ps 1 false

/-- Oracle inputs consumed by one iteration of the monitoring loop:
what the bounded wait returns (none models Err, some none models
Ok(None) - still running, some (some st) models Ok(Some st) - exited),
the value of the signal latch read this iteration, and the shutdown
oracle used if graceful_shutdown is invoked this iteration. -/
structure IterEnv where
  wait : Option (Option ExitStatus)
  term : Bool
  shutdown : ShutdownEnv
deriving DecidableEq

/-- The observable outcome of the monitoring loop: the exit reason and
child exit code reported at the end of main, the total SIGTERM and
SIGKILL sends during the run, and whether some wait observed an exit
status, confirming the child dead before the supervisor returned. -/
structure LoopResult where
  reason : ExitReason
  code : Option Nat
  termSends : Nat
  killSends : Nat
  confirmedExit : Bool
deriving DecidableEq

/-- The timeout and signal branches of the loop (main.rs lines 261-294):
run graceful_shutdown; on Ok the given reason and the returned code are
reported, on Err the reason becomes InternalError with no code. -/
def shutdownOutcome (reason : ExitReason) (ps : ShutdownEnv) : LoopResult :=
  let sd := graceful_shutdown ps
  match sd.result with
  | .ok code =>
    { reason := reason, code := some code,
      termSends := sd.termSends, killSends := sd.killSends,
      confirmedExit := sd.confirmedExit }
  | .error _ =>
    { reason := .InternalError, code := none,
      termSends := sd.termSends, killSends := sd.killSends,
      confirmedExit := sd.confirmedExit }

/-- The monitoring loop of main (main.rs lines 234-295), one list entry
per iteration. Each iteration: perform the bounded wait (an error breaks
with InternalError); if the child exited, decode and break with Finished
(decode failure breaks with InternalError); otherwise subtract
poll_interval from the u64 budget with wrapping and test the u64
comparison run_timeout <= 0, which holds exactly when the budget is 0,
invoking the shutdown protocol with reason Timeout; otherwise, if the
signal latch is set, invoke the shutdown protocol with reason
Terminated; otherwise continue. The result is none when the supplied
iterations are exhausted with the loop still running. -/
def monitorLoop (poll : Nat) : Nat → List IterEnv → Option LoopResult
  | _, [] => none
  | rt, env :: rest =>
    match env.wait with
    | none =>
      some { reason := .InternalError, code := none,
             termSends := 0, killSends := 0, confirmedExit := false }
    | some (some st) =>
      match get_exit_code st with
      | some code =>
        some { reason := .Finished, code := some code,
               termSends := 0, killSends := 0, confirmedExit := true }
      | none =>
        some { reason := .InternalError, code := none,
               termSends := 0, killSends := 0, confirmedExit := true }
    | some none =>
      let rt2 := wrapSub rt poll
      if rt2 = 0 then some (shutdownOutcome .Timeout env.shutdown)
      else if env.term = true then some (shutdownOutcome .Terminated env.shutdown)
      else monitorLoop poll rt2 rest

/-- A shutdown oracle where both signal sends succeed, the child
ignores SIGTERM for the whole grace period, and the final wait reports
death by signal 9 (SIGKILL). -/
def sdKill : ShutdownEnv :=
  { terminate_ok := true, graceWait := some none,
    kill_ok := true, finalWait := some (.Signaled 9) }

/-- A shutdown oracle where the child exits with code 0 within the
grace period after SIGTERM. -/
def sdGrace : ShutdownEnv :=
  { terminate_ok := true, graceWait := some (some (.Exited 0)),
    kill_ok := true, finalWait := some (.Exited 0) }

/-- An iteration in which the bounded wait reports the child still
running and no termination signal has been latched. -/
def runningIter : IterEnv :=
  { wait := some none, term := false, shutdown := sdKill }

theorem shutdown_final_termSends (ps : ShutdownEnv) (kills : Nat) (g : Bool) :
    (shutdown_final ps kills g).termSends = 1 := by
  cases hf : ps.finalWait with
  | none => simp [shutdown_final, hf]
  | some st => cases hc : get_exit_code st <;> simp [shutdown_final, hf, hc]

theorem shutdown_final_killSends (ps : ShutdownEnv) (kills : Nat) (g : Bool) :
    (shutdown_final ps kills g).killSends = kills := by
  cases hf : ps.finalWait with
  | none => simp [shutdown_final, hf]
  | some st => cases hc : get_exit_code st <;> simp [shutdown_final, hf, hc]

theorem shutdown_final_ok (ps : ShutdownEnv) (kills : Nat) (g : Bool)
    (st : ExitStatus) (c : Nat) (hf : ps.finalWait = some st)
    (hc : get_exit_code st = some c) :
    (shutdown_final ps kills g).result = .ok c
    ∧ (shutdown_final ps kills g).confirmedExit = true := by
  simp [shutdown_final, hf, hc]

theorem shutdown_final_ok_confirmed (ps : ShutdownEnv) (kills : Nat) (g : Bool)
    (c : Nat) (h : (shutdown_final ps kills g).result = .ok c) :
    (shutdown_final ps kills g).confirmedExit = true := by
  cases hf : ps.finalWait with
  | none => simp [shutdown_final, hf] at h
  | some st => cases hc : get_exit_code st <;> simp [shutdown_final, hf, hc] at h ⊢

theorem graceful_shutdown_ok_confirmed (ps : ShutdownEnv) (c : Nat)
    (h : (graceful_shutdown ps).result = .ok c) :
    (graceful_shutdown ps).confirmedExit = true := by
  unfold graceful_shutdown at h ⊢
  cases ht : ps.terminate_ok with
  | false => simp [ht] at h
  | true =>
    simp only [ht] at h ⊢
    cases hg : ps.graceWait with
    | none => simp [hg] at h
    | some res =>
      cases res with
      | some st =>
        simp only [hg] at h ⊢
        exact shutdown_final_ok_confirmed ps 0 true c h
      | none =>
        simp only [hg] at h ⊢
        cases hk : ps.kill_ok with
        | false => simp [hk] at h
        | true =>
          simp only [hk] at h ⊢
          exact shutdown_final_ok_confirmed ps 1 false c h

theorem shutdownOutcome_reason_or_confirmed (reason : ExitReason)
    (ps : ShutdownEnv) :
    (shutdownOutcome reason ps).reason = .InternalError
    ∨ (shutdownOutcome reason ps).confirmedExit = true := by
  cases hres : (graceful_shutdown ps).result with
  | error e => simp [shutdownOutcome, hres]
  | ok c =>
    have hc := graceful_shutdown_ok_confirmed ps c hres
    simp [shutdownOutcome, hres, hc]

/-- C1: the loop checks the three terminal conditions in a fixed order.
If the bounded wait of an iteration reports a child exit while the
budget would also be exhausted this iteration (the wrapping decrement
reaches 0), the run ends Finished, not Timeout; if in one iteration the
child is still running, the budget is exhausted and the signal latch is
set, the run ends Timeout (given a successfully decoding shutdown), not
Terminated. -/
theorem c1_loop_priority (poll rt : Nat) (env : IterEnv) (rest : List IterEnv)
    (st : ExitStatus) (c k : Nat) :
    (env.wait = some (some st) → get_exit_code st = some c →
      wrapSub rt poll = 0 →
      monitorLoop poll rt (env :: rest) =
        some { reason := .Finished, code := some c,
               termSends := 0, killSends := 0, confirmedExit := true })
    ∧ (env.wait = some none → wrapSub rt poll = 0 → env.term = true →
      (graceful_shutdown env.shutdown).result = .ok k →
      monitorLoop poll rt (env :: rest) =
        some { reason := .Timeout, code := some k,
               termSends := (graceful_shutdown env.shutdown).termSends,
               killSends := (graceful_shutdown env.shutdown).killSends,
               confirmedExit := (graceful_shutdown env.shutdown).confirmedExit }) := by
  constructor
  · intro hw hd hr
    simp [monitorLoop, hw, hd, hr]
  · intro hw hr ht hok
    simp [monitorLoop, hw, hr, ht, shutdownOutcome, hok]

/-- Witness for C1 at concrete inputs: with poll interval 100 and a
remaining budget of 100, an iteration in which the child exits with
code 7 while the budget expires and the latch is set reports Finished,
and an iteration in which the child keeps running while the budget
expires and the latch is set reports Timeout. -/
theorem c1_loop_priority_witness :
    monitorLoop 100 100
        [{ wait := some (some (.Exited 7)), term := true, shutdown := sdKill }] =
      some { reason := .Finished, code := some 7,
             termSends := 0, killSends := 0, confirmedExit := true }
    ∧ monitorLoop 100 100
        [{ wait := some none, term := true, shutdown := sdKill }] =
      some { reason := .Timeout, code := some 137,
             termSends := 1, killSends := 1, confirmedExit := true } :=
  ⟨(c1_loop_priority 100 100
      { wait := some (some (.Exited 7)), term := true, shutdown := sdKill }
      [] (.Exited 7) 7 137).1 rfl rfl (by decide),
   (c1_loop_priority 100 100
      { wait := some none, term := true, shutdown := sdKill }
      [] .Undetermined 0 137).2 rfl (by decide) rfl rfl⟩

/-- C4: the shutdown protocol is exactly two-phase. SIGTERM is attempted
exactly once in every run. If the child exits within the grace period
after a delivered SIGTERM, SIGKILL is never sent. If the child is still
running after the full grace period, SIGKILL is sent exactly once, and
the protocol then waits unboundedly: once that wait confirms
termination with a decodable status, the decoded code is returned. -/
theorem c4_shutdown_two_phase (ps : ShutdownEnv) :
    (graceful_shutdown ps).termSends = 1
    ∧ (∀ st, ps.terminate_ok = true → ps.graceWait = some (some st) →
        (graceful_shutdown ps).killSends = 0)
    ∧ (ps.terminate_ok = true → ps.graceWait = some none →
        ps.kill_ok = true →
        (graceful_shutdown ps).killSends = 1
        ∧ (∀ st c, ps.finalWait = some st → get_exit_code st = some c →
            (graceful_shutdown ps).result = .ok c
            ∧ (graceful_shutdown ps).confirmedExit = true)) := by
  refine ⟨?_, ?_, ?_⟩
  · obtain ⟨t, g, k, f⟩ := ps
    cases t with
    | false => rfl
    | true =>
      rcases g with _ | (_ | st)
      · rfl
      · cases k with
        | false => rfl
        | true => exact shutdown_final_termSends ⟨true, some none, true, f⟩ 1 false
      · exact shutdown_final_termSends ⟨true, some (some st), k, f⟩ 0 true
  · intro st ht hg
    have h1 : graceful_shutdown ps = shutdown_final ps 0 true := by
      simp [graceful_shutdown, ht, hg]
    rw [h1]
    exact shutdown_final_killSends ps 0 true
  · intro ht hg hk
    have h1 : graceful_shutdown ps = shutdown_final ps 1 false := by
      simp [graceful_shutdown, ht, hg, hk]
    rw [h1]
    refine ⟨shutdown_final_killSends ps 1 false, ?_⟩
    intro st c hf hc
    exact shutdown_final_ok ps 1 false st c hf hc

/-- Witness for C4 at concrete inputs: a child that exits in the grace
period receives no SIGKILL; a child that ignores SIGTERM receives one
SIGKILL and its status, death by signal 9, is decoded to 137. -/
theorem c4_shutdown_two_phase_witness :
    (graceful_shutdown sdGrace).killSends = 0
    ∧ (graceful_shutdown sdKill).killSends = 1
    ∧ (graceful_shutdown sdKill).result = .ok 137
    ∧ (graceful_shutdown sdKill).confirmedExit = true :=
  ⟨(c4_shutdown_two_phase sdGrace).2.1 (.Exited 0) rfl rfl,
   ((c4_shutdown_two_phase sdKill).2.2 rfl rfl rfl).1,
   (((c4_shutdown_two_phase sdKill).2.2 rfl rfl rfl).2 (.Signaled 9) 137 rfl rfl).1,
   (((c4_shutdown_two_phase sdKill).2.2 rfl rfl rfl).2 (.Signaled 9) 137 rfl rfl).2⟩

/-- C2 at the failing input: with poll_interval_ms = 300 and
run_timeout_sec = 1 (budget 1000 ms), a child that never exits with no
signal should time out at the fourth iteration (elapsed 1200 ms,
within one poll interval of the 1000 ms deadline), but after the budget
reaches 100 the wrapping u64 decrement produces 2 ^ 64 - 200, the dead
comparison run_timeout <= 0 never holds, and even after 100 iterations
the loop is still running with no escalation. By contrast, with
poll_interval_ms = 250, which divides the budget evenly, the timeout
fires at the fourth iteration exactly as the specification describes. -/
theorem c2_timeout_wrap_divergence :
    monitorLoop 300 (run_timeout_init 1) (List.replicate 100 runningIter) = none
    ∧ monitorLoop 250 (run_timeout_init 1) (List.replicate 100 runningIter) =
        some { reason := .Timeout, code := some 137,
               termSends := 1, killSends := 1, confirmedExit := true }
    ∧ wrapSub 100 300 = U64 - 200 := by
  refine ⟨by decide, by decide, by decide⟩

/-- C8 at the failing input: with run_timeout_sec = 0 the budget starts
at 0. The first iteration performs its bounded wait before the budget is
examined, so a child that exits in that wait is still reported Finished.
But when the child is still running after the first wait, the claimed
escalation at the first budget check never happens: the wrapping
decrement turns 0 - 100 into 2 ^ 64 - 100, the u64 comparison
run_timeout <= 0 fails, and the loop keeps running, here for 50
iterations and counting. -/
theorem c8_zero_timeout_divergence :
    monitorLoop 100 (run_timeout_init 0)
        [{ wait := some (some (.Exited 7)), term := false, shutdown := sdKill }] =
      some { reason := .Finished, code := some 7,
             termSends := 0, killSends := 0, confirmedExit := true }
    ∧ monitorLoop 100 (run_timeout_init 0) (List.replicate 50 runningIter) = none
    ∧ wrapSub (run_timeout_init 0) 100 = U64 - 100 := by
  refine ⟨rfl, rfl, rfl⟩

/-- C3 counterexample: when the bounded wait itself fails in the first
iteration, the loop breaks with reason InternalError, a non-Finished
outcome, yet no SIGTERM or SIGKILL was ever sent and no wait confirmed
the child dead: the supervisor returns leaving the child running. -/
theorem c3_counterexample :
    monitorLoop 100 (run_timeout_init 1)
        [{ wait := none, term := false, shutdown := sdKill }] =
      some { reason := .InternalError, code := none,
             termSends := 0, killSends := 0, confirmedExit := false } := rfl

/-- C3 amended: in every run that ends with reason Timeout or
Terminated, some wait observed an exit status before the supervisor
returned, so the child is confirmed terminated; the guarantee does not
extend to InternalError outcomes, where the child may be left running. -/
theorem c3_nonfinished_confirmed_terminated (poll : Nat) :
    ∀ rt envs r, monitorLoop poll rt envs = some r →
      r.reason = .Timeout ∨ r.reason = .Terminated →
      r.confirmedExit = true := by
  intro rt envs
  induction envs generalizing rt with
  | nil => intro r h hr; simp [monitorLoop] at h
  | cons env rest ih =>
    intro r h hr
    cases hw : env.wait with
    | none =>
      simp only [monitorLoop, hw] at h
      injection h with h2
      subst h2
      simp at hr
    | some res =>
      cases res with
      | some st =>
        simp only [monitorLoop, hw] at h
        cases hc : get_exit_code st <;> simp only [hc] at h <;>
          injection h with h2 <;> subst h2 <;> simp at hr
      | none =>
        simp only [monitorLoop, hw] at h
        by_cases hz : wrapSub rt poll = 0
        · rw [if_pos hz] at h
          injection h with h2
          subst h2
          rcases shutdownOutcome_reason_or_confirmed .Timeout env.shutdown with hi | hy
          · rw [hi] at hr; simp at hr
          · exact hy
        · rw [if_neg hz] at h
          by_cases htm : env.term = true
          · rw [if_pos htm] at h
            injection h with h2
            subst h2
            rcases shutdownOutcome_reason_or_confirmed .Terminated env.shutdown with hi | hy
            · rw [hi] at hr; simp at hr
            · exact hy
          · rw [if_neg htm] at h
            exact ih (wrapSub rt poll) r h hr

/-- Witness for the amended C3 at a concrete input: a run whose budget
expires in the first iteration ends Timeout with the kill confirmed. -/
theorem c3_nonfinished_confirmed_terminated_witness :
    ({ reason := .Timeout, code := some 137, termSends := 1, killSends := 1,
       confirmedExit := true } : LoopResult).confirmedExit = true :=
  c3_nonfinished_confirmed_terminated 100 100 [runningIter]
    { reason := .Timeout, code := some 137, termSends := 1, killSends := 1,
      confirmedExit := true } rfl (Or.inl rfl)

/-- A JSON value, as far as the configuration format needs: numbers are
integers, since the config only carries u64 fields and a fractional
number fails their deserialization anyway. -/
inductive Json where
  | null
  | bool (b : Bool)
  | num (n : Int)
  | str (s : String)
  | arr (elems : List Json)
  | obj (fields : List (String × Json))

/-- config.rs EnvironmentalVariable. -/
structure EnvironmentalVariable where
  name : String
  value : String
deriving DecidableEq

/-- config.rs Config: the launch specification as deserialized, with the
three u64 timing fields as naturals below 2 ^ 64. -/
structure Config where
  cwd : String
  command : List String
  env : List EnvironmentalVariable
  streams : StreamRedirection
  poll_interval_ms : Nat
  run_timeout_sec : Nat
  grace_period_sec : Nat
deriving DecidableEq

/-- Lookup of a field in a JSON object. -/
def lookupField : List (String × Json) → String → Option Json
  | [], _ => none
  | (k, v) :: rest, key => if k = key then some v else lookupField rest key

/-- A required struct field: missing fields are a deserialization error. -/
def requireField (fields : List (String × Json)) (key : String) :
    Except String Json :=
  match lookupField fields key with
  | some v => .ok v
  | none => .error ("missing field " ++ key)

/-- Deserialization of a string. -/
def decodeString : Json → Except String String
  | .str s => .ok s
  | _ => .error "invalid type: expected a string"

/-- Deserialization of a u64: an integer in the range of u64, kept as a
natural number. Negative or too large numbers are an error. -/
def decodeU64 : Json → Except String Nat
  | .num n => if 0 ≤ n ∧ n < (2 : Int) ^ 64 then .ok n.toNat
              else .error "invalid value: integer out of range of u64"
  | _ => .error "invalid type: expected an unsigned integer"

/-- Deserialization of an optional string field: a missing field and an
explicit null both give none, a string gives some. -/
def decodeOptString : Option Json → Except String (Option String)
  | none => .ok none
  | some .null => .ok none
  | some (.str s) => .ok (some s)
  | _ => .error "invalid type: expected a string or null"

/-- Deserialization of a vector of strings. -/
def decodeStringArray : Json → Except String (List String)
  | .arr elems => elems.mapM decodeString
  | _ => .error "invalid type: expected an array"

/-- Deserialization of one EnvironmentalVariable. -/
def decodeEnvVar : Json → Except String EnvironmentalVariable
  | .obj fields => do
    let name ← requireField fields "name" >>= decodeString
    let value ← requireField fields "value" >>= decodeString
    .ok { name := name, value := value }
  | _ => .error "invalid type: expected a map"

/-- Deserialization of the vector of environment overrides. -/
def decodeEnvArray : Json → Except String (List EnvironmentalVariable)
  | .arr elems => elems.mapM decodeEnvVar
  | _ => .error "invalid type: expected an array"

/-- Deserialization of the StreamRedirection struct, whose three fields
are all optional. -/
def decodeStreams : Json → Except String StreamRedirection
  | .obj fields => do
    let stdin ← decodeOptString (lookupField fields "stdin")
    let stdout ← decodeOptString (lookupField fields "stdout")
    let stderr ← decodeOptString (lookupField fields "stderr")
    .ok { stdin := stdin, stdout := stdout, stderr := stderr }
  | _ => .error "invalid type: expected a map"

/-- Deserialization of the Config struct, mirroring the derived serde
instance used by config.rs: each field is decoded by type; nothing else
is validated. -/
def decodeConfig : Json → Except String Config
  | .obj fields =>
    match requireField fields "cwd" >>= decodeString with
    | .error e => .error e
    | .ok cwd =>
      match requireField fields "command" >>= decodeStringArray with
      | .error e => .error e
      | .ok command =>
        match requireField fields "env" >>= decodeEnvArray with
        | .error e => .error e
        | .ok env =>
          match requireField fields "streams" >>= decodeStreams with
          | .error e => .error e
          | .ok streams =>
            match requireField fields "poll_interval_ms" >>= decodeU64 with
            | .error e => .error e
            | .ok poll =>
              match requireField fields "run_timeout_sec" >>= decodeU64 with
              | .error e => .error e
              | .ok rt =>
                match requireField fields "grace_period_sec" >>= decodeU64 with
                | .error e => .error e
                | .ok grace =>
                  .ok { cwd := cwd, command := command, env := env,
                        streams := streams, poll_interval_ms := poll,
                        run_timeout_sec := rt, grace_period_sec := grace }
  | _ => .error "invalid type: expected a map"

/-- config.rs load_json (lines 28-50): read the file at the path - the
filesystem is an oracle from paths to parsed JSON documents, where none
stands for a read or parse failure - then deserialize into Config.
No further validation is performed. -/
def load_json (fs : String → Option Json) (path : String) :
    Except String Config :=
  match fs path with
  | none => .error "Failed to read or parse config file"
  | some j => decodeConfig j

/-- A syntactically well-formed config document whose command array is
empty and whose poll interval is zero. -/
def invalidSpecJson : Json :=
  .obj [("cwd", .str "/"), ("command", .arr []), ("env", .arr []),
        ("streams", .obj []), ("poll_interval_ms", .num 0),
        ("run_timeout_sec", .num 0), ("grace_period_sec", .num 0)]

/-- C9 counterexample: load_json accepts a document with an empty
command sequence and a zero poll interval, violating the stated
LaunchSpec invariant; no validation beyond deserialization happens. -/
theorem c9_counterexample :
    load_json (fun _ => some invalidSpecJson) "config.json" =
      .ok { cwd := "/", command := [], env := [],
            streams := { stdin := none, stdout := none, stderr := none },
            poll_interval_ms := 0, run_timeout_sec := 0,
            grace_period_sec := 0 } := rfl

theorem except_bind_ok {α β : Type} (a : α) (f : α → Except String β) :
    (Except.ok a >>= f) = f a := rfl

theorem except_bind_error {α β : Type} (e : String) (f : α → Except String β) :
    ((Except.error e : Except String α) >>= f) = Except.error e := rfl

theorem decodeU64_lt (j : Json) (n : Nat) (h : decodeU64 j = .ok n) :
    n < U64 := by
  cases j with
  | num m =>
    simp only [decodeU64] at h
    split at h
    · rename_i hcond
      injection h with h2
      subst h2
      have hm := hcond.2
      have he : ((2 : Int) ^ 64) = ((U64 : Nat) : Int) := by norm_num [U64]
      rw [he] at hm
      omega
    · simp at h
  | null => simp [decodeU64] at h
  | bool b => simp [decodeU64] at h
  | str s => simp [decodeU64] at h
  | arr elems => simp [decodeU64] at h
  | obj fields => simp [decodeU64] at h

theorem bind_decodeU64_lt (x : Except String Json) (n : Nat)
    (h : (x >>= decodeU64) = .ok n) : n < U64 := by
  cases x with
  | error e => rw [except_bind_error] at h; cases h
  | ok j =>
    rw [except_bind_ok] at h
    exact decodeU64_lt j n h

theorem decodeConfig_durations_lt (j : Json) (c : Config)
    (h : decodeConfig j = .ok c) :
    c.poll_interval_ms < U64 ∧ c.run_timeout_sec < U64
    ∧ c.grace_period_sec < U64 := by
  cases j with
  | null => simp [decodeConfig] at h
  | bool b => simp [decodeConfig] at h
  | num m => simp [decodeConfig] at h
  | str s => simp [decodeConfig] at h
  | arr elems => simp [decodeConfig] at h
  | obj fields =>
    simp only [decodeConfig] at h
    cases h1 : requireField fields "cwd" >>= decodeString with
    | error e => simp only [h1] at h; cases h
    | ok cwd =>
    simp only [h1] at h
    cases h2 : requireField fields "command" >>= decodeStringArray with
    | error e => simp only [h2] at h; cases h
    | ok command =>
    simp only [h2] at h
    cases h3 : requireField fields "env" >>= decodeEnvArray with
    | error e => simp only [h3] at h; cases h
    | ok env =>
    simp only [h3] at h
    cases h4 : requireField fields "streams" >>= decodeStreams with
    | error e => simp only [h4] at h; cases h
    | ok streams =>
    simp only [h4] at h
    cases h5 : requireField fields "poll_interval_ms" >>= decodeU64 with
    | error e => simp only [h5] at h; cases h
    | ok poll =>
    simp only [h5] at h
    cases h6 : requireField fields "run_timeout_sec" >>= decodeU64 with
    | error e => simp only [h6] at h; cases h
    | ok rt =>
    simp only [h6] at h
    cases h7 : requireField fields "grace_period_sec" >>= decodeU64 with
    | error e => simp only [h7] at h; cases h
    | ok grace =>
    simp only [h7] at h
    injection h with h8
    subst h8
    exact ⟨bind_decodeU64_lt _ poll h5, bind_decodeU64_lt _ rt h6,
           bind_decodeU64_lt _ grace h7⟩

/-- C9 amended: deserialization is the only validation load_json
performs. Every Config it produces has its three duration fields
non-negative and within the range of u64 - this much the unsigned field
types enforce - but a successfully loaded Config need not have a
non-empty command or a positive poll interval. -/
theorem c9_load_json_durations (fs : String → Option Json) (path : String)
    (c : Config) (h : load_json fs path = .ok c) :
    0 ≤ c.poll_interval_ms ∧ c.poll_interval_ms < U64
    ∧ 0 ≤ c.run_timeout_sec ∧ c.run_timeout_sec < U64
    ∧ 0 ≤ c.grace_period_sec ∧ c.grace_period_sec < U64 := by
  cases hf : fs path with
  | none => simp [load_json, hf] at h
  | some j =>
    simp only [load_json, hf] at h
    obtain ⟨hp, hr, hg⟩ := decodeConfig_durations_lt j c h
    exact ⟨Nat.zero_le _, hp, Nat.zero_le _, hr, Nat.zero_le _, hg⟩

/-- Witness for the amended C9: the document accepted above yields a
Config whose durations are all zero, non-negative and within u64. -/
theorem c9_load_json_durations_witness :
    0 ≤ (0 : Nat) ∧ (0 : Nat) < U64 ∧ 0 ≤ (0 : Nat) ∧ (0 : Nat) < U64
    ∧ 0 ≤ (0 : Nat) ∧ (0 : Nat) < U64 :=
  c9_load_json_durations (fun _ => some invalidSpecJson) "config.json"
    { cwd := "/", command := [], env := [],
      streams := { stdin := none, stdout := none, stderr := none },
      poll_interval_ms := 0, run_timeout_sec := 0, grace_period_sec := 0 }
    rfl

/-- The flags of std:fs OpenOptions; File options() starts with every
flag false. -/
structure OpenOptions where
  read : Bool
  write : Bool
  append : Bool
  truncate : Bool
  create : Bool
  create_new : Bool
deriving DecidableEq

/-- File options(): all flags off. -/
def file_options : OpenOptions :=
  { read := false, write := false, append := false,
    truncate := false, create := false, create_new := false }

/-- redirection.rs file_read (lines 6-10): read only. -/
def file_read : OpenOptions := { file_options with read := true }

/-- redirection.rs file_write (lines 12-18): truncate, write, create. -/
def file_write : OpenOptions :=
  { file_options with truncate := true, write := true, create := true }

/-- An observable step of process setup: opening a file with given
options, resolving stderr as a merge without opening, or spawning the
child. -/
inductive SetupEvent where
  | openFile (path : String) (opts : OpenOptions)
  | mergeStderr
  | spawn
deriving DecidableEq

/-- The file side effects of main lines 217-228: create_popen_config
opens the stdin, stdout and stderr redirections in the order of the
PopenConfig literal - stderr opening a second sink only when the raw
targets differ, merging otherwise - and only then is the child spawned
by Popen::create. -/
def setupTrace (streams : StreamRedirection) : List SetupEvent :=
  [SetupEvent.openFile (resolvePath streams.stdin) file_read,
   SetupEvent.openFile (resolvePath streams.stdout) file_write]
  ++ (if streams.stdout ≠ streams.stderr
      then [SetupEvent.openFile (resolvePath streams.stderr) file_write]
      else [SetupEvent.mergeStderr])
  ++ [SetupEvent.spawn]

/-- C10: every sink is opened with the write, create and truncate flags
on, so a pre-existing file at a sink path is emptied, while stdin is
opened read-only, never truncated or created. Concretely: every open in
the setup trace is either the stdin source with the read-only options
or a sink path with the write options; the stdin open at its resolved
path (the default null path when unset) with the read-only options is
in the trace; the stdout sink open at its resolved path with the
write/create/truncate options is in the trace; when the raw targets
differ, so is the stderr sink open with those options; and the spawn
event is the last event of the trace, so every open precedes the
spawn. -/
theorem c10_open_options_and_order (streams : StreamRedirection) :
    (file_write.write = true ∧ file_write.create = true
      ∧ file_write.truncate = true)
    ∧ (file_read.read = true ∧ file_read.write = false
      ∧ file_read.create = false ∧ file_read.truncate = false)
    ∧ (∀ p o, SetupEvent.openFile p o ∈ setupTrace streams →
        (p = resolvePath streams.stdin ∧ o = file_read)
        ∨ ((p = resolvePath streams.stdout ∨ p = resolvePath streams.stderr)
            ∧ o = file_write))
    ∧ SetupEvent.openFile (resolvePath streams.stdin) file_read
        ∈ setupTrace streams
    ∧ SetupEvent.openFile (resolvePath streams.stdout) file_write
        ∈ setupTrace streams
    ∧ (streams.stdout ≠ streams.stderr →
        SetupEvent.openFile (resolvePath streams.stderr) file_write
          ∈ setupTrace streams)
    ∧ (∀ i, (setupTrace streams).get? i = some SetupEvent.spawn →
        i + 1 = (setupTrace streams).length) := by
  refine ⟨⟨rfl, rfl, rfl⟩, ⟨rfl, rfl, rfl, rfl⟩, ?_, ?_, ?_, ?_, ?_⟩
  · intro p o hmem
    by_cases hd : streams.stdout = streams.stderr <;>
      simp [setupTrace, hd] at hmem <;> tauto
  · by_cases hd : streams.stdout = streams.stderr <;> simp [setupTrace, hd]
  · by_cases hd : streams.stdout = streams.stderr <;> simp [setupTrace, hd]
  · intro hne
    simp [setupTrace, hne]
  · intro i hi
    by_cases hd : streams.stdout = streams.stderr <;>
      simp only [setupTrace, hd] at hi ⊢ <;>
      rcases i with _ | _ | _ | _ | i <;>
      simp_all [List.get?]

/-- Witness for C10 at concrete redirection specs: with all targets
default, the stdin open at /dev/null carries the read-only options, the
stdout sink open at /dev/null carries the write/create/truncate
options, and the spawn at index 3 is the last of the four events; with
an explicit distinct stderr target, the stderr sink open at that path
carries the write/create/truncate options too. -/
theorem c10_open_options_and_order_witness :
    (("/dev/null" = resolvePath none ∧ file_read = file_read)
      ∨ (("/dev/null" = resolvePath none ∨ "/dev/null" = resolvePath none)
          ∧ file_read = file_write))
    ∧ SetupEvent.openFile "/dev/null" file_read
        ∈ setupTrace { stdin := none, stdout := none, stderr := none }
    ∧ SetupEvent.openFile "/dev/null" file_write
        ∈ setupTrace { stdin := none, stdout := none, stderr := none }
    ∧ SetupEvent.openFile "/tmp/err.log" file_write
        ∈ setupTrace { stdin := none, stdout := none,
                       stderr := some "/tmp/err.log" }
    ∧ 3 + 1 =
        (setupTrace { stdin := none, stdout := none, stderr := none }).length :=
  ⟨(c10_open_options_and_order
      { stdin := none, stdout := none, stderr := none }).2.2.1
      "/dev/null" file_read (by decide),
   (c10_open_options_and_order
      { stdin := none, stdout := none, stderr := none }).2.2.2.1,
   (c10_open_options_and_order
      { stdin := none, stdout := none, stderr := none }).2.2.2.2.1,
   (c10_open_options_and_order
      { stdin := none, stdout := none,
        stderr := some "/tmp/err.log" }).2.2.2.2.2.1 (by decide),
   (c10_open_options_and_order
      { stdin := none, stdout := none, stderr := none }).2.2.2.2.2.2
      3 (by decide)⟩

end SbxRunner
